import Mathlib

/-!
Verification development for pgstatsmon (Postgres fleet telemetry collector).

This file gives a shallow embedding, in Lean 4, of the parts of the
pgstatsmon source that the specification claims talk about:

  * the delta recorder `PgMon.prototype.record` of lib/pgstatsmon.js,
  * the version-gated query selection `getQueries` of lib/queries.js,
  * the query wrapper `PGClient.prototype.query` of lib/pgclient.js
    (per-query timeout, abort flag, terminal events),
  * the per-backend error handling `barrier_drain` of
    `PgMon.prototype.tick`,
  * the Prometheus exposer `PrometheusTarget`,
  * the bootstrap pipeline `setup_monitoring_user` of lib/dbinit.js and
    its caller `PgMon.prototype.setup_backend`,
  * `PgMon.prototype.stop` and `remove_connection_data`,
  * the database-name selection of the discovery `added` handler.

JavaScript dynamic values are modelled by an explicit `Value` type with
the coercion rules (`isNaN`, `===`, `>`, `-`, truthiness) used at the
sites the source exercises them.  Machine floats only ever hold integral
statistics counters and epoch timestamps in this program, so numbers are
modelled as `Int`.
-/

namespace Pgstatsmon

/--
A JavaScript value as it appears in a query result row:
a number, `null`, `NaN`, a date (as delivered by the pg driver for
timestamp columns, carrying its epoch milliseconds), or a string.
An absent property (`undefined`) is modelled as `Option.none` at use
sites.
-/
inductive Value where
  | num (n : Int)
  | null
  | nan
  | time (t : Int)
  | str (s : String)
deriving DecidableEq, Repr

/--
JavaScript `Number(s)` on the strings this program can meet:
the empty string coerces to `0`, decimal integer literals to their
value, anything else to `NaN` (`Option.none`).  (Fractional literals do
not occur in the modelled rows.)
-/
def jsStrToNum (s : String) : Option Int :=
  if s = "" then some 0 else s.toInt?

/--
JavaScript numeric coercion `Number(v)` of a possibly-absent value:
`none` is `NaN`.  `null` coerces to `0`; a date coerces to its epoch
milliseconds (its `valueOf`); `undefined` and `NaN` stay `NaN`.
-/
def jsToNum : Option Value → Option Int
  | some (Value.num n) => some n
  | some Value.null => some 0
  | some Value.nan => none
  | some (Value.time t) => some t
  | some (Value.str s) => jsStrToNum s
  | none => none

/-- JavaScript global `isNaN(v)`: numeric coercion yields `NaN`. -/
def jsIsNaN (v : Option Value) : Bool :=
  (jsToNum v).isNone

/-- JavaScript truthiness of a possibly-absent value. -/
def jsTruthy : Option Value → Bool
  | some (Value.num n) => n ≠ 0
  | some Value.null => false
  | some Value.nan => false
  | some (Value.time _) => true
  | some (Value.str s) => s ≠ ""
  | none => false

/--
JavaScript relational `a > b` under numeric coercion: `false` whenever
either side coerces to `NaN`.  (String-to-string lexicographic
comparison is not modelled; the compared row attributes hold numbers,
`null` or dates in this program.)
-/
def jsGtV (a b : Option Value) : Bool :=
  match jsToNum a, jsToNum b with
  | some x, some y => x > y
  | _, _ => false

/-- JavaScript subtraction `a - b` under numeric coercion; `none` is `NaN`. -/
def jsSub (a b : Option Value) : Option Int :=
  match jsToNum a, jsToNum b with
  | some x, some y => some (x - y)
  | _, _ => none

/--
`Date.parse(v)` as used on the `stats_reset` column: a date value
parses to its epoch milliseconds; an absent value or any other shape
models as `NaN` (`none`).  (The pg driver delivers timestamp columns as
date values.)
-/
def jsDateParse : Option Value → Option Int
  | some (Value.time t) => some t
  | _ => none

/-- JavaScript `a > b` on two `Date.parse` results (`NaN` compares false). -/
def jsGtParsed (a b : Option Int) : Bool :=
  match a, b with
  | some x, some y => x > y
  | _, _ => false

/--
JavaScript property-key coercion of the value `row[query.q_statkey]`
used to index the per-query data object.  Dates stringify to their
verbose form; an opaque tag keeps the mapping injective (statkeys are
never date-valued in the catalog).
-/
def jsKey : Option Value → String
  | some (Value.num n) => toString n
  | some Value.null => "null"
  | some Value.nan => "NaN"
  | some (Value.time t) => "date:" ++ toString t
  | some (Value.str s) => s
  | none => "undefined"

/-- A result row: an association of column names to values. -/
abbrev Row := List (String × Value)

/-- Property read `row[attr]`; `none` models `undefined`. -/
def rowGet (r : Row) (attr : String) : Option Value :=
  (r.find? (fun p => p.1 = attr)).map (fun p => p.2)

/-- A JavaScript object keyed by strings (the per-query data store). -/
abbrev JsObj (α : Type) := List (String × α)

/-- Property read `obj[key]`. -/
def objGet {α : Type} (o : JsObj α) (key : String) : Option α :=
  (o.find? (fun p => p.1 = key)).map (fun p => p.2)

/-- Property write `obj[key] = v` (replace an existing key, else append). -/
def objSet {α : Type} (o : JsObj α) (key : String) (v : α) : JsObj α :=
  match o with
  | [] => [(key, v)]
  | p :: rest => if p.1 = key then (key, v) :: rest else p :: objSet rest key v

/-- A counter description from the query catalog (`counters[i]`). -/
structure CounterSpec where
  attr : String
  help : String
  unit : Option String := none
deriving DecidableEq, Repr

/-- A gauge description from the query catalog (`gauges[i]`). -/
structure GaugeSpec where
  attr : String
  help : String
  unit : Option String := none
  expires : Bool := false
deriving DecidableEq, Repr

/--
A gauge as held by a constructed `Query` object: `getQueries` stamps
`expiryPeriod` onto expiring gauges before the `Query` is built.
-/
structure GaugeR where
  attr : String
  help : String
  unit : Option String := none
  expires : Bool := false
  expiryPeriod : Option Int := none
deriving DecidableEq, Repr

/--
The `Query` object built by lib/queries.js (`q_sql` is the
version-selected SQL) and consumed by lib/pgstatsmon.js.
-/
structure QueryR where
  q_name : String
  q_statkey : String
  q_sql : String
  q_counters : List CounterSpec := []
  q_gauges : List GaugeR := []
  q_metadata : List String := []
deriving DecidableEq, Repr

/-- A metric identity as built by `PgMon.prototype.qstatname`. -/
structure Metric where
  name : String
  metadata : List (String × Option Value)
deriving DecidableEq, Repr

/--
`PgMon.prototype.qstatname`: metric name `<q_name>_<attr>[_<unit>]`,
metadata `backend` plus the values of the query metadata columns read
from the row.
-/
def qstatname (q : QueryR) (backendName : String) (row : Option Row)
    (attr : String) (unit : Option String) : Metric :=
  let base := q.q_name ++ "_" ++ attr
  let nm := match unit with
    | some u => base ++ "_" ++ u
    | none => base
  let md : List (String × Option Value) :=
    ("backend", some (Value.str backendName)) ::
      (match row with
       | some r => q.q_metadata.map (fun a => (a, rowGet r a))
       | none => [])
  { name := nm, metadata := md }

/--
One observable effect of `PgMon.prototype.record` for a single row:
a registry update (counter add, gauge set, or the `pg_NaN_error`
counter emitted by `record_NaN`), a log entry, or the AssertionError
thrown by `mod_assertplus.number(value)` at the top of
`PgMon.prototype.emitCounter` / `emitGauge` when the value is not a
number (NaN included); the throw reaches no registry and aborts the
row iteration, so it is always the last emission of a `record` run.
Counter and gauge values that do reach the registry are therefore
numbers.
-/
inductive Emit where
  | counter (m : Metric) (v : Int)
  | gauge (m : Metric) (v : Int) (expires : Bool) (expiryPeriod : Option Int)
  | nanErrorCounter (metricName backend query : String)
  | logStatsReset (backend query : String)
  | logRowDetected (backend query key : String)
  | logNullValue (m : Metric)
  | logOldGreater (backend key : String)
  | assertionFailed (m : Metric)
deriving DecidableEq, Repr

/-- Whether an `Emit` is a registry update (rather than a log line or a throw). -/
def Emit.isRegistryUpdate : Emit → Bool
  | Emit.counter _ _ => true
  | Emit.gauge _ _ _ _ => true
  | Emit.nanErrorCounter _ _ _ => true
  | _ => false

/--
The `emit_counters` loop of one `record_metrics_for_row` iteration
(part_006 lines 1061-1103): per counter, the NaN / null / implicit
reset guards, then `mon.emitCounter(metric, new_value - old_value)`.
`emitCounter` asserts `mod_assertplus.number(value)` before touching
any target, so a NaN difference (the old value absent or not coercing
to a number) throws: the pair's Bool reports the throw, which aborts
the remaining counters and gauges of the row.
-/
def recordCounters (q : QueryR) (backendName key : String) (row oldrow : Row) :
    List CounterSpec → List Emit × Bool
  | [] => ([], false)
  | c :: rest =>
    let metric := qstatname q backendName (some row) c.attr c.unit
    let new_value := rowGet row c.attr
    let old_value := rowGet oldrow c.attr
    if jsIsNaN new_value then
      let r := recordCounters q backendName key row oldrow rest
      (Emit.nanErrorCounter metric.name backendName q.q_name :: r.1, r.2)
    else if new_value = some Value.null then
      let r := recordCounters q backendName key row oldrow rest
      (Emit.logNullValue metric :: r.1, r.2)
    else if jsGtV old_value new_value then
      let r := recordCounters q backendName key row oldrow rest
      (Emit.logOldGreater backendName key :: r.1, r.2)
    else
      match jsSub new_value old_value with
      | some n =>
        let r := recordCounters q backendName key row oldrow rest
        (Emit.counter metric n :: r.1, r.2)
      | none => ([Emit.assertionFailed metric], true)

/--
The `emit_gauges` loop of one `record_metrics_for_row` iteration
(part_006 lines 1105-1129): per gauge, the NaN / null guards, the
expiry decoration, then `mon.emitGauge(metric, new_value)`, whose
`mod_assertplus.number(value)` assertion throws on any non-number
value (a date or a string, which pass the `isNaN` coercion check but
are not of number type).
-/
def recordGauges (q : QueryR) (backendName : String) (row : Row) :
    List GaugeR → List Emit × Bool
  | [] => ([], false)
  | g :: rest =>
    let metric := qstatname q backendName (some row) g.attr g.unit
    let new_value := rowGet row g.attr
    if jsIsNaN new_value then
      let r := recordGauges q backendName row rest
      (Emit.nanErrorCounter metric.name backendName q.q_name :: r.1, r.2)
    else if new_value = some Value.null then
      let r := recordGauges q backendName row rest
      (Emit.logNullValue metric :: r.1, r.2)
    else
      match new_value with
      | some (Value.num n) =>
        let r := recordGauges q backendName row rest
        (Emit.gauge metric n g.expires g.expiryPeriod :: r.1, r.2)
      | _ => ([Emit.assertionFailed metric], true)

/--
The body of the `record_metrics_for_row` loop of
`PgMon.prototype.record` (part_006 lines 1022-1130) for one new row,
given the result set of the previous tick (`oldresult`): the emissions
of the row, and whether an emit assertion threw (aborting the rest of
the row and of the datum).  The source tests `row.stats_reset &&
oldrow` before the `!oldrow` early return; the two orderings agree
because the reset branch also requires `oldrow`.
-/
def recordRowAux (q : QueryR) (backendName : String) (oldresult : JsObj Row)
    (row : Row) : List Emit × Bool :=
  let key := jsKey (rowGet row q.q_statkey)
  match objGet oldresult key with
  | none => ([Emit.logRowDetected backendName q.q_name key], false)
  | some oldrow =>
    if jsTruthy (rowGet row "stats_reset") &&
        jsGtParsed (jsDateParse (rowGet row "stats_reset"))
          (jsDateParse (rowGet oldrow "stats_reset")) then
      ([Emit.logStatsReset backendName q.q_name], false)
    else
      let cs := recordCounters q backendName key row oldrow q.q_counters
      if cs.2 then cs
      else
        let gs := recordGauges q backendName row q.q_gauges
        (cs.1 ++ gs.1, gs.2)

/-- The emissions of `record` for one row. -/
def recordRow (q : QueryR) (backendName : String) (oldresult : JsObj Row)
    (row : Row) : List Emit :=
  (recordRowAux q backendName oldresult row).1

/-- Result of one `record` call: the replaced data store and the emissions. -/
structure RecordOut where
  newData : JsObj Row
  emits : List Emit
deriving DecidableEq, Repr

/--
The `datum.forEach(record_metrics_for_row)` loop: each row is indexed
into the fresh data object before its metrics are emitted, and an
assert throw propagates out of the forEach, leaving later rows
unprocessed.
-/
def recordRows (q : QueryR) (backendName : String) (oldresult : JsObj Row) :
    List Row → JsObj Row → List Emit × JsObj Row
  | [], data => ([], data)
  | row :: rest, data =>
    let data1 := objSet data (jsKey (rowGet row q.q_statkey)) row
    let r := recordRowAux q backendName oldresult row
    if r.2 then (r.1, data1)
    else
      let rr := recordRows q backendName oldresult rest data1
      (r.1 ++ rr.1, rr.2)

/--
`PgMon.prototype.record`: snapshot the previous result set, rebuild the
per-query data object keyed by `row[q_statkey]`, and emit per-row
deltas against the snapshot.
-/
def record (q : QueryR) (backendName : String) (oldresult : JsObj Row)
    (datum : List Row) : RecordOut :=
  { newData := (recordRows q backendName oldresult datum []).2,
    emits := (recordRows q backendName oldresult datum []).1 }

/--
A catalog entry of lib/queries.js: `versionToSql` maps either the
single key "all", or stringified minimum server version numbers, to a
SQL statement.  The SQL text itself is represented by a distinct marker
string per statement (its exact characters play no role in any claim;
names, version keys, statkeys, metadata and metric lists are verbatim
from the source).  The association list is in JavaScript enumeration
order: integer-like keys enumerate in ascending numeric order, which is
also the order of the source literals.
-/
structure CatalogQuery where
  name : String
  statkey : String
  metadata : List String := []
  versionToSql : List (String × String)
  counters : List CounterSpec := []
  gauges : List GaugeSpec := []
deriving DecidableEq, Repr

/-- The QUERIES catalog of lib/queries.js (part one of the repository). -/
def QUERIES : List CatalogQuery := [
  { name := "pg_stat_user_tables",
    statkey := "relid",
    metadata := ["schemaname", "relname"],
    versionToSql := [("all", "sql:pg_stat_user_tables:all")],
    counters := [
      { attr := "analyze_count", help := "manual anaylze operations" },
      { attr := "autoanalyze_count", help := "autoanalyze operations" },
      { attr := "autovacuum_count", help := "autovacuum operations" },
      { attr := "idx_scan", help := "index scans" },
      { attr := "idx_tup_fetch", help := "index tuples fetched" },
      { attr := "n_tup_del", help := "tuples deleted" },
      { attr := "n_tup_hot_upd", help := "tuples updated (hot)" },
      { attr := "n_tup_ins", help := "tuples inserted" },
      { attr := "n_tup_upd", help := "tuples updated" },
      { attr := "seq_scan", help := "sequential table scans" },
      { attr := "seq_tup_read", help := "sequential tuples read" },
      { attr := "vacuum_count", help := "manual vacuum operations" }],
    gauges := [
      { attr := "n_live_tup", help := "estimated live tuples" },
      { attr := "n_dead_tup", help := "estimated dead tuples" }] },
  { name := "pg_statio_user_tables",
    statkey := "relid",
    metadata := ["schemaname", "relname"],
    versionToSql := [("all", "sql:pg_statio_user_tables:all")],
    counters := [
      { attr := "heap_blks_read", help := "number of disk blocks read from this table" },
      { attr := "heap_blks_hit", help := "number of buffer hits in this table" },
      { attr := "idx_blks_read", help := "number of disk blocks read from all indexes on this table" },
      { attr := "idx_blks_hit", help := "number of disk blocks hit in all indexes on this table" }] },
  { name := "pg_statio_user_indexes",
    statkey := "indexrelid",
    metadata := ["indexrelname", "schemaname", "relname"],
    versionToSql := [("all", "sql:pg_statio_user_indexes:all")],
    counters := [
      { attr := "idx_blks_read", help := "number of disk blocks read from this index" },
      { attr := "idx_blks_hit", help := "number of buffer hits in this index" }] },
  { name := "pg_stat_replication",
    statkey := "application_name",
    metadata := ["sync_state"],
    versionToSql := [("90400", "sql:pg_stat_replication:90400"),
                     ("100000", "sql:pg_stat_replication:100000")],
    counters := [
      { attr := "wal_sent", help := "wal bytes sent to replica", unit := some "bytes" },
      { attr := "replica_wal_written", help := "wal bytes written by replica", unit := some "bytes" },
      { attr := "replica_wal_flushed", help := "wal bytes flushed by replica", unit := some "bytes" },
      { attr := "replica_wal_replayed", help := "wal bytes replayed into database by replica",
        unit := some "bytes" }] },
  { name := "pg_recovery",
    statkey := "recovery",
    metadata := [],
    versionToSql := [("90400", "sql:pg_recovery:90400"),
                     ("100000", "sql:pg_recovery:100000")],
    counters := [
      { attr := "wal_inserted_bytes", help := "WAL bytes inserted" },
      { attr := "wal_replayed_bytes", help := "WAL bytes replayed into DB" },
      { attr := "wal_received_bytes", help := "WAL bytes received from upstream server" },
      { attr := "wal_flushed_bytes", help := "WAL bytes flushed to disk" }] },
  { name := "pg_stat_activity",
    statkey := "datname",
    metadata := ["datname", "state"],
    versionToSql := [("all", "sql:pg_stat_activity:all")],
    gauges := [
      { attr := "connections", help := "worker process state" }] },
  { name := "pg_stat_database",
    statkey := "datname",
    metadata := ["datname"],
    versionToSql := [("all", "sql:pg_stat_database:all")],
    counters := [
      { attr := "tup_returned", help := "tuples returned" },
      { attr := "tup_fetched", help := "tuples fetched" },
      { attr := "tup_inserted", help := "tuples inserted" },
      { attr := "tup_updated", help := "tuples updated" },
      { attr := "tup_deleted", help := "tuples deleted" },
      { attr := "blks_read", help := "blocks read from disk" },
      { attr := "blks_hit", help := "blocks read from buffercache" },
      { attr := "xact_commit", help := "transactions committed" },
      { attr := "xact_rollback", help := "transactions rolled back" },
      { attr := "blk_read_time", help := "time spent reading blocks", unit := some "ms" },
      { attr := "blk_write_time", help := "time spent writing blocks", unit := some "ms" }],
    gauges := [
      { attr := "numbackends", help := "number of connections" }] },
  { name := "pg_relation_size",
    statkey := "relfilenode",
    metadata := ["schemaname", "relname"],
    versionToSql := [("all", "sql:pg_relation_size:all")],
    gauges := [
      { attr := "row_estimate", help := "estimated number of tuples" },
      { attr := "total_bytes", help := "total bytes used" },
      { attr := "index_bytes", help := "bytes used by indexes" },
      { attr := "toast_bytes", help := "bytes used by toast files" }] },
  { name := "pg_stat_bgwriter",
    statkey := "bgwriter",
    metadata := [],
    versionToSql := [("all", "sql:pg_stat_bgwriter:all")],
    counters := [
      { attr := "checkpoints_timed", help := "scheduled checkpoints" },
      { attr := "checkpoints_req", help := "requested checkpoints" },
      { attr := "checkpoint_write_time", help := "time spent writing checkpoints to disk",
        unit := some "ms" },
      { attr := "checkpoint_sync_time", help := "time spent synchronizing checkpoints to disk",
        unit := some "ms" },
      { attr := "buffers_checkpoint", help := "buffers written during checkpoints" },
      { attr := "buffers_clean", help := "buffers written by bgwriter" },
      { attr := "maxwritten_clean",
        help := "number of times bgwriter stopped a cleaning scan because too many buffers were written" },
      { attr := "buffers_backend", help := "buffers written by a backend" },
      { attr := "buffers_backend_fsync", help := "number of fsync calls by backends" },
      { attr := "buffers_alloc", help := "number of buffers allocated" }] },
  { name := "pg_vacuum",
    statkey := "relfileid",
    metadata := ["schemaname", "relname"],
    versionToSql := [("all", "sql:pg_vacuum:all")],
    gauges := [
      { attr := "xid_age", help := "transactions since last wraparound autovacuum" },
      { attr := "tx_until_wraparound_autovacuum",
        help := "transactions until the next wraparound autovacuum" }] },
  { name := "pg_stat_progress_vacuum",
    statkey := "relname",
    metadata := ["schemaname", "relname", "vacuum_mode"],
    versionToSql := [("90600", "sql:pg_stat_progress_vacuum:90600")],
    gauges := [
      { attr := "phase", help := "current processing phase of vacuum", expires := true },
      { attr := "query_start", help := "unix epoch timestamp of the vacuum began", expires := true },
      { attr := "heap_blks_total",
        help := "total number of heap blocks in the table as of the beginning of the scan",
        expires := true },
      { attr := "heap_blks_scanned", help := "number of heap blocks scanned", expires := true },
      { attr := "heap_blks_vacuumed", help := "number of heap blocks vacuumed", expires := true },
      { attr := "index_vacuum_count", help := "number of completed index vacuum cycles",
        expires := true },
      { attr := "max_dead_tuples",
        help := "number of dead tuples that we can store before needing to perform an index vacuum cycle",
        expires := true },
      { attr := "num_dead_tuples",
        help := "number of dead tuples collected since the last index vacuum cycle",
        expires := true }] }]

/-- Value of a decimal digit character, if it is one. -/
def digitVal (c : Char) : Option Nat :=
  if 48 ≤ c.toNat ∧ c.toNat ≤ 57 then some (c.toNat - 48) else none

/-- Accumulate a decimal number over a character list; any non-digit fails. -/
def parseDigitsAux : List Char → Nat → Option Nat
  | [], acc => some acc
  | c :: rest, acc =>
    match digitVal c with
    | some d => parseDigitsAux rest (acc * 10 + d)
    | none => none

/--
jsprim.parseInteger on a version key (default options: exact decimal
integer): the catalog schema restricts the keys other than "all" to
nonempty digit strings, on which it returns the decimal value.
-/
def jsprimParseInteger (s : String) : Option Int :=
  match s.data with
  | [] => none
  | cs => (parseDigitsAux cs 0).map Int.ofNat

/--
The version number of a key as `getQueries` uses it; the preceding
assertion guarantees the parse did not fail on catalog keys.
-/
def parseVersion (s : String) : Int :=
  (jsprimParseInteger s).getD 0

/--
The inner loop of `getQueries` over `versionToSql`
(jsprim.forEachKey): the "all" entry, or any integer key less than or
equal to the server version, overwrites `applicableSql`; the last
matching entry in enumeration order wins.
-/
def selectSql (pgVersion : Int) (vts : List (String × String)) : Option String :=
  vts.foldl
    (fun applicableSql kv =>
      if kv.1 = "all" then some kv.2
      else if pgVersion ≥ parseVersion kv.1 then some kv.2
      else applicableSql)
    none

/--
Stamp the gauge expiry period (`interval + 30000`) used for expiring
gauges, as `getQueries` does before constructing the `Query`.
-/
def applyExpiry (interval : Int) (g : GaugeSpec) : GaugeR :=
  { attr := g.attr, help := g.help, unit := g.unit, expires := g.expires,
    expiryPeriod := if g.expires then some (interval + 30000) else none }

/-- Construct the `Query` object for a catalog entry and its selected SQL. -/
def mkQueryR (interval : Int) (cq : CatalogQuery) (sql : String) : QueryR :=
  { q_name := cq.name, q_statkey := cq.statkey, q_sql := sql,
    q_counters := cq.counters, q_gauges := cq.gauges.map (applyExpiry interval),
    q_metadata := cq.metadata }

/--
The outer loop of `getQueries` over the catalog, parameterized by the
SQL selection function: an entry with a selected SQL is pushed onto the
applicable list; an entry without one is skipped and its name debug
logged.  Returns (applicable queries, names logged as inapplicable).
-/
def applyQueries (sel : List (String × String) → Option String) (interval : Int) :
    List CatalogQuery → List QueryR × List String
  | [] => ([], [])
  | cq :: rest =>
    let (qs, logs) := applyQueries sel interval rest
    match sel cq.versionToSql with
    | some sql => (mkQueryR interval cq sql :: qs, logs)
    | none => (qs, cq.name :: logs)

/-- lib/queries.js `getQueries` (lines 541 to 627). -/
def getQueries (interval pgVersion : Int) : List QueryR × List String :=
  applyQueries (selectSql pgVersion) interval QUERIES

/--
Modelled from the spec: SQL selection as the specification words it,
"choose the maximum threshold at most server_version_num; a query
carrying the single key all always applies; if no threshold matches,
the query is omitted".
-/
def specSelect (pgVersion : Int) (vts : List (String × String)) : Option String :=
  match vts.find? (fun kv => kv.1 = "all") with
  | some kv => some kv.2
  | none =>
    (vts.foldl
      (fun best kv =>
        if parseVersion kv.1 ≤ pgVersion then
          match best with
          | none => some kv
          | some b => if parseVersion b.1 < parseVersion kv.1 then some kv else some b
        else best)
      none).map (fun kv => kv.2)

/-- Modelled from the spec: the query set the specification promises. -/
def getQueriesSpec (interval pgVersion : Int) : List QueryR × List String :=
  applyQueries (specSelect pgVersion) interval QUERIES

/-!
The PGClient query wrapper (lib/pgclient.js, `PGClient.prototype.query`).

An execution of `query(sql)` is driven by the events the underlying
node-postgres query delivers (row, end, error), each tagged with the
wall-clock milliseconds since the query was issued, plus the timeout
timer armed at issue time when `queryTimeout > 0`.  The timer fires
before processing any underlying event that is due at or after the
deadline, and fires after the input is exhausted if still armed; it is
cleared by `onRow` and by `done`.  The deferral of the underlying
error through setImmediate does not change which events are delivered,
only their relative order against same-instant events, and is folded
into the event position here.
-/

/-- An event delivered by the underlying node-postgres query. -/
inductive SEvent where
  | srow (v : Value)
  | send
  | serror
deriving DecidableEq, Repr

/-- An event emitted by the wrapper stream to its consumer. -/
inductive CEmit where
  | row (v : Value)
  | cend
  | cerror (isTimeout : Bool)
deriving DecidableEq, Repr

/-- The wrapper state: the abort flag, the pending timer, the emitted events, and `client_had_err`. -/
structure CQState where
  aborted : Bool := false
  timerArmed : Bool := false
  emits : List CEmit := []
  hadErr : Bool := false
deriving DecidableEq, Repr

/--
The `onRowTimeout` callback: record the error on the client
(`client_had_err`), set `aborted`, and emit the QueryTimeout error.
-/
def fireTimer (s : CQState) : CQState :=
  { s with aborted := true, timerArmed := false, hadErr := true,
           emits := s.emits ++ [CEmit.cerror true] }

/--
Process one underlying event at wall-clock time `t`: first fire the
timer if it is armed and due, then run the corresponding handler
(`onRow`, or `done` for end and error), each of which drops the event
when `aborted` and otherwise emits it and clears the timer.
-/
def stepEvent (timeout : Int) (s : CQState) (te : Int × SEvent) : CQState :=
  let s1 := if s.timerArmed && timeout ≤ te.1 then fireTimer s else s
  match te.2 with
  | SEvent.srow v =>
    if s1.aborted then s1
    else { s1 with timerArmed := false, emits := s1.emits ++ [CEmit.row v] }
  | SEvent.send =>
    if s1.aborted then s1
    else { s1 with timerArmed := false, emits := s1.emits ++ [CEmit.cend] }
  | SEvent.serror =>
    if s1.aborted then s1
    else { s1 with timerArmed := false, emits := s1.emits ++ [CEmit.cerror false] }

/--
A complete execution of `PGClient.prototype.query`: the timer is armed
iff `queryTimeout > 0`; the underlying events are processed in order;
a timer still armed when the input is exhausted eventually fires.
-/
def clientQueryRun (timeout : Int) (events : List (Int × SEvent)) : CQState :=
  let s := events.foldl (stepEvent timeout) { timerArmed := decide (0 < timeout) }
  if s.timerArmed then fireTimer s else s

/-- Whether a wrapper emission is a terminal event (end or error). -/
def CEmit.isTerminal : CEmit → Bool
  | CEmit.row _ => false
  | CEmit.cend => true
  | CEmit.cerror _ => true

/-- Number of terminal events the wrapper delivered. -/
def terminalCount (s : CQState) : Nat :=
  (s.emits.filter CEmit.isTerminal).length

/-- Whether an underlying event is terminal (end or error). -/
def SEvent.isTerminal : SEvent → Bool
  | SEvent.srow _ => false
  | SEvent.send => true
  | SEvent.serror => true

/-- Number of terminal events in the underlying sequence. -/
def underlyingTerminals (events : List (Int × SEvent)) : Nat :=
  (events.filter (fun te => te.2.isTerminal)).length

/-- Whether the first underlying event arrives strictly before the deadline. -/
def headBeforeDeadline (events : List (Int × SEvent)) (timeout : Int) : Prop :=
  match events with
  | [] => False
  | te :: _ => te.1 < timeout

instance (events : List (Int × SEvent)) (timeout : Int) :
    Decidable (headBeforeDeadline events timeout) := by
  unfold headBeforeDeadline
  match events with
  | [] => exact inferInstanceAs (Decidable False)
  | te :: _ => exact inferInstanceAs (Decidable (te.1 < timeout))

/-!
Per-backend error handling at the end of a tick
(`barrier_drain` in `PgMon.prototype.tick`, part_006 lines 752 to 799).

The errors pushed during the tick are combined by
`verror.errorFromList`: an empty list yields null, a singleton yields
the error itself, more than one yields a MultiError whose cause chain
holds the MultiError itself and the FIRST listed error.
`verror.hasCauseWithName` walks that cause chain only.  Errors are
modelled by their `name` property (the pushed errors are leaf errors
with no further causes).
-/

/-- The combined error produced by verror.errorFromList. -/
inductive VErr where
  | single (name : String)
  | multi (firstName : String)
deriving DecidableEq, Repr

/-- verror.errorFromList. -/
def errorFromList : List String → Option VErr
  | [] => none
  | [e] => some (VErr.single e)
  | e :: _ :: _ => some (VErr.multi e)

/--
The guard `error && mod_verror.hasCauseWithName(error, nm)`:
hasCauseWithName walks the cause chain of the combined error, which is
the error itself for a singleton and (MultiError, first error) for a
MultiError.
-/
def hasCauseWithName (e : Option VErr) (nm : String) : Bool :=
  match e with
  | none => false
  | some (VErr.single n) => n = nm
  | some (VErr.multi n) => nm = "MultiError" || n = nm

/-- What `barrier_drain` does with the claimed connection handle. -/
inductive DrainAction where
  | close
  | connectError
  | release
deriving DecidableEq, Repr

/--
Result of `barrier_drain`: the handle action and the counters the
branch emits (the connect-error branch emits `pg_connect_error` 1).
-/
structure DrainOut where
  action : DrainAction
  counterEmits : List (String × Int)
deriving DecidableEq, Repr

/-- The `barrier_drain` callback of `PgMon.prototype.tick`. -/
def barrierDrain (errors : List String) : DrainOut :=
  let error := errorFromList errors
  if hasCauseWithName error "QueryTimeoutError" then
    { action := DrainAction.close, counterEmits := [] }
  else if hasCauseWithName error "PoolFailedError" ||
      hasCauseWithName error "ClaimTimeoutError" ||
      hasCauseWithName error "PoolStoppingError" then
    { action := DrainAction.connectError, counterEmits := [("pg_connect_error", 1)] }
  else
    { action := DrainAction.release, counterEmits := [] }

/-!
The Prometheus exposer (`PrometheusTarget` in part_006, lines 1265 to
1344).  The collector state is the artedi collector; a scrape renders
it without modifying anything and without invoking the collection
engine (the route handler closes over the target alone).
-/

/-- The target section of the configuration. -/
structure TargetConf where
  ip : String
  port : Int
  route : String
  metadata : List (String × String) := []
deriving DecidableEq, Repr

/-- A sample as held by the artedi collector (external library state). -/
structure Sample where
  name : String
  metadata : List (String × Option Value)
  value : Option Int
deriving DecidableEq, Repr

/-- The PrometheusTarget object state. -/
structure PromTarget where
  pe_ip : String
  pe_port : Int
  pe_route : String
  registeredRoute : String
  collector : List Sample
deriving DecidableEq, Repr

/--
The `PrometheusTarget` constructor: it stores `conf.route` in
`pe_route` but registers the GET handler on the literal string
"/metrics" (`this.pe_server.get("/metrics", ...)`).
-/
def mkPrometheusTarget (conf : TargetConf) : PromTarget :=
  { pe_ip := conf.ip, pe_port := conf.port, pe_route := conf.route,
    registeredRoute := "/metrics", collector := [] }

/-- An HTTP response of the scrape handler. -/
structure PromResponse where
  status : Int
  contentType : String
  body : List Sample
deriving DecidableEq, Repr

/--
Modelled from the external artedi library: `collect(FMT_PROM, cb)`
renders the current series.  The rendering itself is the external
collaborator; the model returns the collector snapshot.
-/
def artediCollect (samples : List Sample) : List Sample :=
  samples

/--
The GET route handler of `PrometheusTarget`: call `collect` on the
collector and reply 200 with the Prometheus content type.  It is a
function of the target alone (the closure captures only `prom`) and
returns the target unchanged: serving a scrape performs no collection.
-/
def promServe (t : PromTarget) : PromResponse × PromTarget :=
  ({ status := 200, contentType := "text/plain; version=0.0.4",
     body := artediCollect t.collector }, t)

/-!
The bootstrap pipeline (lib/dbinit.js `setup_monitoring_user`) and its
caller (`PgMon.prototype.setup_backend`, part_006 lines 387 to 430).
-/

/--
A step of the `setup_monitoring_user` vasync pipeline, identified by
the statement it issues.  `showServerVersionNum` is the step the
specification describes (obtaining the integer server version); it is
listed here so that its absence from the source pipeline can be
stated.
-/
inductive DbinitStep where
  | connectSuperuser
  | checkRecovery
  | createRole (user : String)
  | createActivityFunction
  | createReplicationFunction
  | createProgressVacuumFunction
  | showServerVersionNum
deriving DecidableEq, Repr

/--
The `setup_monitoring_user` pipeline of lib/dbinit.js, in order:
connect as the postgres superuser, `SELECT pg_is_in_recovery();`,
`CREATE ROLE <user> WITH ...`, and the three
`CREATE OR REPLACE FUNCTION` statements for get_stat_activity,
get_stat_replication and get_stat_progress_vacuum.
-/
def dbinitPipeline (user : String) : List DbinitStep :=
  [ DbinitStep.connectSuperuser,
    DbinitStep.checkRecovery,
    DbinitStep.createRole user,
    DbinitStep.createActivityFunction,
    DbinitStep.createReplicationFunction,
    DbinitStep.createProgressVacuumFunction ]

/-- The result object `setup_backend` expects from the bootstrap. -/
structure SetupResult where
  pg_version : Int
deriving DecidableEq, Repr

/--
The value `setup_monitoring_user` passes as the second callback
argument on success: the source invokes `callback(err)` with a single
argument, so the caller sees `undefined` (`none`).
-/
def setupMonitoringUserResult : Option SetupResult :=
  none

/--
The success continuation of `setup_backend`: read
`setup_result.pg_version` and compute the applicable query set.
Reading a property of `undefined` throws a TypeError.
-/
def setupBackendCompute (interval : Int) (setup_result : Option SetupResult) :
    Except String (List QueryR) :=
  match setup_result with
  | none => Except.error "TypeError: cannot read pg_version of undefined"
  | some r => Except.ok (getQueries interval r.pg_version).1

/-!
`PgMon.prototype.stop` (part_006 lines 631 to 646): the pools array is
traversed with `forEach` while `remove_connection_data` splices the
same array, so the traversal advances over a shrinking array.
-/

/--
The `pm_pools.forEach` loop of `stop` under array mutation:
JavaScript forEach visits index i while i is below the CURRENT length;
the callback stops the pool at index i and then
`remove_connection_data(i)` splices that index out of the array.
Returns (pools stopped and removed, pools left untouched).
-/
def stopPoolsLoop (arr : List String) (i : Nat) (stopped : List String) :
    List String × List String :=
  if h : i < arr.length then
    stopPoolsLoop (arr.eraseIdx i) (i + 1) (stopped ++ [arr.get ⟨i, h⟩])
  else
    (stopped, arr)
termination_by arr.length - i
decreasing_by
  simp only [List.length_eraseIdx, h, if_pos]
  omega

/-- The observable outcome of `PgMon.prototype.stop`. -/
structure StopOut where
  timerCleared : Bool
  targetsStopped : Bool
  poolsStopped : List String
  poolsStillRunning : List String
deriving DecidableEq, Repr

/--
`PgMon.prototype.stop`: clear the tick interval, stop every metric
target, then run the pools forEach loop that stops pools and splices
their data out.
-/
def pgmonStop (pools : List String) : StopOut :=
  let r := stopPoolsLoop pools 0 []
  { timerCleared := true, targetsStopped := true,
    poolsStopped := r.1, poolsStillRunning := r.2 }

/-!
The discovery `added` handler (part_006 lines 261 to 344): the target
database is chosen from the second dot-separated component of the
display name; the configured database and the placeholder stored by
the static provider are never consulted.
-/

/-- Helper for `jsSplit`: split a character list on a separator. -/
def splitCharAux (sep : Char) : List Char → List Char → List String
  | [], acc => [String.mk acc.reverse]
  | c :: rest, acc =>
    if c = sep then String.mk acc.reverse :: splitCharAux sep rest []
    else splitCharAux sep rest (c :: acc)

/--
JavaScript `s.split(sep)` for a single-character separator: the empty
string splits to one empty component, and separators delimit possibly
empty components.
-/
def jsSplit (sep : Char) (s : String) : List String :=
  splitCharAux sep s.data []

/--
The database choice of the `added` handler: component 1 of
`backend.name.split(".")` selects moray for postgres, boray for
buckets-postgres, and anything else fails the assertion
`mod_assertplus.equal(..., "buckets-postgres")`.
-/
def chooseDatabase (name : String) : Except String String :=
  let second := (jsSplit '.' name)[1]?
  if second = some "postgres" then Except.ok "moray"
  else if second = some "buckets-postgres" then Except.ok "boray"
  else Except.error "AssertionError: buckets-postgres expected"

/-- A backend object delivered by a discovery added event. -/
structure BackendObj where
  name : String
  address : String
  port : Int
  database : Option String := none
deriving DecidableEq, Repr

/-- The per-backend pool entry pushed by the added handler. -/
structure PoolEntry where
  backendName : String
  database : String
  needs_setup : Bool
  setting_up : Bool
deriving DecidableEq, Repr

/--
The `added` handler: pick the database from the display name and
create the pool entry (`needs_setup` true, `setting_up` false).  The
handler reads neither the configured default database nor the
`database` field of the backend object, which is therefore passed here
only to witness its irrelevance.
-/
def addedHandler (_configDatabase : String) (backend : BackendObj) :
    Except String PoolEntry :=
  match chooseDatabase backend.name with
  | Except.error e => Except.error e
  | Except.ok db =>
    Except.ok { backendName := backend.name, database := db,
                needs_setup := true, setting_up := false }

/-!
Theorems.
-/

/--
C4: if the previously recorded result set has no entry for a row key,
`record` makes no registry update for that row in that tick: the only
effect is the row-detection log entry.  A counter series is therefore
first updated no earlier than the second successive observation of its
identifying row.
-/
theorem first_observation_no_update (q : QueryR) (b : String) (old : JsObj Row)
    (row : Row) (h : objGet old (jsKey (rowGet row q.q_statkey)) = none) :
    recordRow q b old row =
      [Emit.logRowDetected b q.q_name (jsKey (rowGet row q.q_statkey))] ∧
    ∀ e ∈ recordRow q b old row, e.isRegistryUpdate = false := by
  refine ⟨by simp [recordRow, recordRowAux, h], ?_⟩
  intro e he
  simp only [recordRow, recordRowAux, h] at he
  simp only [List.mem_singleton] at he
  subst he
  rfl

/-- Witness for C4 at a concrete first observation. -/
theorem first_observation_no_update_witness :
    (objGet ([] : JsObj Row) (jsKey (rowGet [("k", Value.num 1)]
        ({ q_name := "tq", q_statkey := "k", q_sql := "s" } : QueryR).q_statkey)) = none) ∧
    recordRow { q_name := "tq", q_statkey := "k", q_sql := "s" } "b" []
        [("k", Value.num 1)] = [Emit.logRowDetected "b" "tq" "1"] := by
  refine ⟨by decide, ?_⟩
  exact (first_observation_no_update { q_name := "tq", q_statkey := "k", q_sql := "s" }
    "b" [] [("k", Value.num 1)] (by decide)).1

/--
C5 counterexample: a tick whose errors list holds a plain query error
followed by a query timeout releases the handle back into the pool:
`errorFromList` wraps the list in a MultiError whose cause chain only
reaches the FIRST error, so `hasCauseWithName(error,
"QueryTimeoutError")` does not see the timeout and the connection is
not closed, contradicting the claim that any QueryTimeout closes it.
-/
theorem drain_counterexample :
    barrierDrain ["error", "QueryTimeoutError"] =
      { action := DrainAction.release, counterEmits := [] } := by
  decide

/--
C5 amended: the `barrier_drain` decision depends only on the first
error in the accumulated list (the cause chain that
`verror.hasCauseWithName` walks): close on a first QueryTimeoutError,
count `pg_connect_error` on a first pool error, and release otherwise,
including when later errors in the list carry those names.
-/
theorem drain_first_error_decides :
    barrierDrain [] = { action := DrainAction.release, counterEmits := [] } ∧
    ∀ (e : String) (es : List String),
      barrierDrain (e :: es) =
        (if e = "QueryTimeoutError" then
          { action := DrainAction.close, counterEmits := [] }
         else if e = "PoolFailedError" ∨ e = "ClaimTimeoutError" ∨ e = "PoolStoppingError" then
          { action := DrainAction.connectError, counterEmits := [("pg_connect_error", 1)] }
         else
          { action := DrainAction.release, counterEmits := [] }) := by
  refine ⟨rfl, ?_⟩
  intro e es
  cases es with
  | nil =>
    simp only [barrierDrain, errorFromList, hasCauseWithName]
    split_ifs <;> simp_all
  | cons e2 es2 =>
    simp only [barrierDrain, errorFromList, hasCauseWithName]
    split_ifs <;> simp_all

/--
C7 counterexample: the configured route is ignored; the GET handler is
registered on the literal "/metrics" even when the configuration asks
for another route.
-/
theorem route_config_counterexample :
    (mkPrometheusTarget
      { ip := "127.0.0.1", port := 8881, route := "/custom" }).registeredRoute
      = "/metrics" := by
  rfl

/--
C7 amended: the exposer registers its GET handler on the hardcoded
route "/metrics" (the configured `target.route` is stored but never
used to register the handler); a scrape replies 200 with content type
"text/plain; version=0.0.4" and the artedi rendering of the current
collector state, and leaves the target unchanged: serving a scrape
triggers no collection tick.
-/
theorem metrics_route_hardcoded :
    ∀ (conf : TargetConf) (t : PromTarget),
      (mkPrometheusTarget conf).registeredRoute = "/metrics" ∧
      (mkPrometheusTarget conf).pe_route = conf.route ∧
      (promServe t).1.status = 200 ∧
      (promServe t).1.contentType = "text/plain; version=0.0.4" ∧
      (promServe t).1.body = artediCollect t.collector ∧
      (promServe t).2 = t := by
  intro conf t
  exact ⟨rfl, rfl, rfl, rfl, rfl, rfl⟩

/--
C8: the bootstrap pipeline of lib/dbinit.js never executes
`SHOW server_version_num` (or any version query); its callback passes
no result object, so the success continuation of `setup_backend`,
which reads `setup_result.pg_version` to compute the applicable query
set, dereferences undefined and throws instead of computing the set.
-/
theorem bootstrap_no_version_query :
    ∀ (user : String) (interval : Int),
      DbinitStep.showServerVersionNum ∉ dbinitPipeline user ∧
      setupMonitoringUserResult = none ∧
      setupBackendCompute interval setupMonitoringUserResult =
        Except.error "TypeError: cannot read pg_version of undefined" := by
  intro user interval
  refine ⟨?_, rfl, rfl⟩
  simp [dbinitPipeline]

/-- Witness for C8 at the concrete monitoring user and interval. -/
theorem bootstrap_no_version_query_witness :
    setupBackendCompute 100 setupMonitoringUserResult =
      Except.error "TypeError: cannot read pg_version of undefined" :=
  (bootstrap_no_version_query "pgstatsmon" 100).2.2

/--
C9: with two discovered backends, `stop()` clears the timer and stops
the targets, but the pools forEach loop splices the array it is
iterating: only the first backend pool is stopped and removed; the
second backend pool is left running with its data in place,
contradicting both the claim and the function comment that all
connections are closed.
-/
theorem stop_skips_alternate_backends :
    pgmonStop ["p0", "p1"] =
      { timerCleared := true, targetsStopped := true,
        poolsStopped := ["p0"], poolsStillRunning := ["p1"] } := by
  simp [pgmonStop, stopPoolsLoop]

/--
C10: the target database of a discovered backend is chosen solely from
the second dot-separated component of its display name: postgres picks
moray, buckets-postgres picks boray, anything else fails the
assertion; the configured database value and the database field of the
backend object (the static provider placeholder) never influence the
result.
-/
theorem database_from_display_name :
    ∀ (cdb1 cdb2 d : String) (b : BackendObj),
      (addedHandler cdb1 b = addedHandler cdb2 { b with database := some d }) ∧
      ((jsSplit '.' b.name)[1]? = some "postgres" →
        addedHandler cdb1 b = Except.ok
          { backendName := b.name, database := "moray",
            needs_setup := true, setting_up := false }) ∧
      ((jsSplit '.' b.name)[1]? = some "buckets-postgres" →
        addedHandler cdb1 b = Except.ok
          { backendName := b.name, database := "boray",
            needs_setup := true, setting_up := false }) ∧
      ((jsSplit '.' b.name)[1]? ≠ some "postgres" →
        (jsSplit '.' b.name)[1]? ≠ some "buckets-postgres" →
        addedHandler cdb1 b =
          Except.error "AssertionError: buckets-postgres expected") := by
  intro cdb1 cdb2 d b
  refine ⟨rfl, ?_, ?_, ?_⟩
  · intro h
    simp [addedHandler, chooseDatabase, h]
  · intro h
    simp [addedHandler, chooseDatabase, h]
  · intro h1 h2
    simp [addedHandler, chooseDatabase, h1, h2]

/-- Witness for C10 on concrete moray and assertion-failing names. -/
theorem database_from_display_name_witness :
    ((jsSplit '.' "3.postgres.example.com")[1]? = some "postgres") ∧
    addedHandler "configured-db"
      { name := "3.postgres.example.com", address := "10.0.0.1", port := 5432 } =
      Except.ok
        { backendName := "3.postgres.example.com", database := "moray",
          needs_setup := true, setting_up := false } := by
  refine ⟨by decide, ?_⟩
  exact ((database_from_display_name "configured-db" "x" "y"
    { name := "3.postgres.example.com", address := "10.0.0.1", port := 5432 }).2.1
      (by decide))

/--
C3 counterexample: the timeout timer is cleared by the FIRST
underlying event, not by the terminal event.  With a 100 ms timeout, a
row at 50 ms and the underlying end at 1000 ms, the wall clock between
issuing the query and the terminal event exceeds the timeout, yet the
stream ends normally: no QueryTimeout error is emitted, nothing is
dropped, and the client is not marked as having had an error.
-/
theorem query_timeout_counterexample :
    clientQueryRun 100 [(50, SEvent.srow (Value.num 7)), (1000, SEvent.send)] =
      { aborted := false, timerArmed := false,
        emits := [CEmit.row (Value.num 7), CEmit.cend], hadErr := false } := by
  decide

/--
C6 counterexample: nothing deduplicates terminal events other than the
timeout abort flag.  If the underlying query emits error and then end
(as node-postgres does on failures), the wrapper delivers BOTH an
error and an end to its consumer.
-/
theorem double_terminal_counterexample :
    clientQueryRun 100 [(10, SEvent.serror), (20, SEvent.send)] =
      { aborted := false, timerArmed := false,
        emits := [CEmit.cerror false, CEmit.cend], hadErr := false } := by
  decide

/--
If the old value does not compare greater than the new value under the
JavaScript relational coercion, a numeric JavaScript subtraction of
the two is non-negative.
-/
lemma jsSub_nonneg_of_not_gt (a b : Option Value) (h : jsGtV b a = false) :
    ∀ n : Int, jsSub a b = some n → 0 ≤ n := by
  intro n hn
  unfold jsSub at hn
  unfold jsGtV at h
  rcases ha : jsToNum a with _ | x <;> rcases hb : jsToNum b with _ | y <;>
      rw [ha, hb] at hn h <;> simp_all
  omega

/--
Every counter sample emitted by the `emit_counters` loop names a
catalog counter of the query, carries the JavaScript difference of the
new and old values of its attribute, and is non-negative: the
implicit-reset guard has skipped `old > new`, and a non-number
difference threw in `emitCounter` instead of becoming a sample.
-/
lemma recordCounters_mem (q : QueryR) (b key : String) (row orow : Row) :
    ∀ (cs : List CounterSpec) (m : Metric) (v : Int),
      Emit.counter m v ∈ (recordCounters q b key row orow cs).1 →
      ∃ c ∈ cs, m = qstatname q b (some row) c.attr c.unit ∧
        some v = jsSub (rowGet row c.attr) (rowGet orow c.attr) ∧ 0 ≤ v := by
  intro cs
  induction cs with
  | nil => intro m v h; simp [recordCounters] at h
  | cons c rest ih =>
    intro m v h
    simp only [recordCounters] at h
    split at h
    · rcases List.mem_cons.mp h with h1 | h1
      · simp at h1
      · obtain ⟨c2, hc2, hrest⟩ := ih m v h1
        exact ⟨c2, List.mem_cons_of_mem _ hc2, hrest⟩
    · split at h
      · rcases List.mem_cons.mp h with h1 | h1
        · simp at h1
        · obtain ⟨c2, hc2, hrest⟩ := ih m v h1
          exact ⟨c2, List.mem_cons_of_mem _ hc2, hrest⟩
      · split at h
        · rcases List.mem_cons.mp h with h1 | h1
          · simp at h1
          · obtain ⟨c2, hc2, hrest⟩ := ih m v h1
            exact ⟨c2, List.mem_cons_of_mem _ hc2, hrest⟩
        · rename_i hgt
          split at h
          · rename_i n hjs
            rcases List.mem_cons.mp h with h1 | h1
            · obtain ⟨hm, hv⟩ := Emit.counter.inj h1
              refine ⟨c, List.mem_cons_self _ _, hm, ?_, ?_⟩
              · rw [hv, ← hjs]
              · subst hv
                exact jsSub_nonneg_of_not_gt _ _ (by simpa using hgt) v hjs
            · obtain ⟨c2, hc2, hrest⟩ := ih m v h1
              exact ⟨c2, List.mem_cons_of_mem _ hc2, hrest⟩
          · simp at h

/-- The `emit_gauges` loop adds no counter sample. -/
lemma recordGauges_no_counter (q : QueryR) (b : String) (row : Row) :
    ∀ (gs : List GaugeR) (m : Metric) (v : Int),
      Emit.counter m v ∉ (recordGauges q b row gs).1 := by
  intro gs
  induction gs with
  | nil => intro m v h; simp [recordGauges] at h
  | cons g rest ih =>
    intro m v h
    simp only [recordGauges] at h
    split at h
    · rcases List.mem_cons.mp h with h1 | h1
      · simp at h1
      · exact ih m v h1
    · split at h
      · rcases List.mem_cons.mp h with h1 | h1
        · simp at h1
        · exact ih m v h1
      · split at h
        · rcases List.mem_cons.mp h with h1 | h1
          · simp at h1
          · exact ih m v h1
        · simp at h

/--
C1: for a row whose key is present in the previous result set,
(1) when both rows carry a `stats_reset` date and the new one parses
strictly later, `record` skips the row entirely for this tick (the
only effect is the reset log), and (2) every counter sample added to
the registry for the row carries, for some catalog counter of the
query, the JavaScript difference of the new and old values of its
attribute, and that value is non-negative: the implicit-reset guard
skips rows with `old > new`, and a difference that is not a number
(previous value absent or NaN) is rejected by the
`mod_assertplus.number` assertion of `emitCounter` before reaching any
registry.
-/
theorem counter_delta_nonneg (q : QueryR) (b : String) (old : JsObj Row)
    (row orow : Row)
    (hold : objGet old (jsKey (rowGet row q.q_statkey)) = some orow) :
    (∀ t1 t2 : Int, rowGet row "stats_reset" = some (Value.time t2) →
        rowGet orow "stats_reset" = some (Value.time t1) → t1 < t2 →
        recordRow q b old row = [Emit.logStatsReset b q.q_name]) ∧
    (∀ m v, Emit.counter m v ∈ recordRow q b old row →
        ∃ c ∈ q.q_counters,
          m = qstatname q b (some row) c.attr c.unit ∧
          some v = jsSub (rowGet row c.attr) (rowGet orow c.attr) ∧
          0 ≤ v) := by
  constructor
  · intro t1 t2 hnew hprev hlt
    simp only [recordRow, recordRowAux, hold]
    rw [hnew, hprev]
    simp [jsTruthy, jsDateParse, jsGtParsed, hlt]
  · intro m v hmem
    simp only [recordRow, recordRowAux, hold] at hmem
    split at hmem
    · simp at hmem
    · split at hmem
      · exact recordCounters_mem q b _ row orow q.q_counters m v hmem
      · rw [List.mem_append] at hmem
        rcases hmem with h | h
        · exact recordCounters_mem q b _ row orow q.q_counters m v h
        · exact absurd h (recordGauges_no_counter q b row q.q_gauges m v)

/-- Witness for C1 applying the reset part at a concrete reset. -/
theorem counter_delta_nonneg_witness :
    (objGet
        [("1", [("k", Value.num 1), ("n", Value.num 3), ("stats_reset", Value.time 100)])]
        (jsKey (rowGet [("k", Value.num 1), ("n", Value.num 5), ("stats_reset", Value.time 200)]
          ({ q_name := "tq", q_statkey := "k", q_sql := "s",
             q_counters := [{ attr := "n", help := "h" }] } : QueryR).q_statkey)) =
      some [("k", Value.num 1), ("n", Value.num 3), ("stats_reset", Value.time 100)]) ∧
    recordRow
      { q_name := "tq", q_statkey := "k", q_sql := "s",
        q_counters := [{ attr := "n", help := "h" }] } "b"
      [("1", [("k", Value.num 1), ("n", Value.num 3), ("stats_reset", Value.time 100)])]
      [("k", Value.num 1), ("n", Value.num 5), ("stats_reset", Value.time 200)] =
      [Emit.logStatsReset "b" "tq"] := by
  refine ⟨by decide, ?_⟩
  exact (counter_delta_nonneg
    { q_name := "tq", q_statkey := "k", q_sql := "s",
      q_counters := [{ attr := "n", help := "h" }] } "b"
    [("1", [("k", Value.num 1), ("n", Value.num 3), ("stats_reset", Value.time 100)])]
    [("k", Value.num 1), ("n", Value.num 5), ("stats_reset", Value.time 200)]
    [("k", Value.num 1), ("n", Value.num 3), ("stats_reset", Value.time 100)]
    (by decide)).1 100 200 (by decide) (by decide) (by decide)

/--
Once the wrapper is aborted with the timer resolved, every further
underlying event is dropped: the state no longer changes.
-/
lemma foldl_stepEvent_absorbed (T : Int) :
    ∀ (evs : List (Int × SEvent)) (s : CQState),
      s.aborted = true → s.timerArmed = false →
      evs.foldl (stepEvent T) s = s := by
  intro evs
  induction evs with
  | nil => intro s _ _; rfl
  | cons te rest ih =>
    intro s h1 h2
    obtain ⟨t, e⟩ := te
    have hstep : stepEvent T s (t, e) = s := by
      unfold stepEvent
      rw [h2]
      cases e <;> simp [h1]
    rw [List.foldl_cons, hstep]
    exact ih s h1 h2

/--
C3 amended: the timeout covers the window from issuing the query until
its FIRST underlying event.  If no underlying event arrives within
`query_timeout_ms` of issue (and the timeout is positive), the wrapper
emits exactly one error, of kind QueryTimeout, drops every subsequent
server-side event, and marks the client as having had an error.  (A
row arriving before the deadline clears the timer for good, so a late
terminal event alone never triggers the timeout; see the C3
counterexample.)
-/
theorem query_timeout_window (timeout : Int) (events : List (Int × SEvent))
    (h1 : 0 < timeout) (h2 : ∀ te ∈ events, timeout ≤ te.1) :
    clientQueryRun timeout events =
      { aborted := true, timerArmed := false,
        emits := [CEmit.cerror true], hadErr := true } := by
  unfold clientQueryRun
  cases events with
  | nil => simp [fireTimer, h1]
  | cons te rest =>
    obtain ⟨t, e⟩ := te
    have ht : timeout ≤ t := h2 (t, e) (List.mem_cons_self _ _)
    have hstep : stepEvent timeout { timerArmed := decide (0 < timeout) } (t, e) =
        { aborted := true, timerArmed := false,
          emits := [CEmit.cerror true], hadErr := true } := by
      unfold stepEvent fireTimer
      cases e <;> simp [h1, ht]
    rw [List.foldl_cons, hstep,
      foldl_stepEvent_absorbed timeout rest _ rfl rfl]
    rfl

/-- Witness for C3 at a concrete all-late event sequence. -/
theorem query_timeout_window_witness :
    ((0 : Int) < 100 ∧ ∀ te ∈ [((150 : Int), SEvent.send)], (100 : Int) ≤ te.1) ∧
    clientQueryRun 100 [(150, SEvent.send)] =
      { aborted := true, timerArmed := false,
        emits := [CEmit.cerror true], hadErr := true } := by
  refine ⟨⟨by decide, by decide⟩, ?_⟩
  exact query_timeout_window 100 [(150, SEvent.send)] (by decide) (by decide)

/-- The wrapper emission an underlying event maps to when forwarded. -/
def toCEmit (te : Int × SEvent) : CEmit :=
  match te.2 with
  | SEvent.srow v => CEmit.row v
  | SEvent.send => CEmit.cend
  | SEvent.serror => CEmit.cerror false

/-- Forwarding preserves being a terminal event. -/
lemma isTerminal_toCEmit (te : Int × SEvent) :
    CEmit.isTerminal (toCEmit te) = te.2.isTerminal := by
  obtain ⟨t, e⟩ := te
  cases e <;> rfl

/--
With the timer resolved and no abort, the wrapper forwards every
underlying event unchanged.
-/
lemma foldl_stepEvent_forwards (T : Int) :
    ∀ (evs : List (Int × SEvent)) (s : CQState),
      s.aborted = false → s.timerArmed = false →
      evs.foldl (stepEvent T) s =
        { aborted := false, timerArmed := false,
          emits := s.emits ++ evs.map toCEmit, hadErr := s.hadErr } := by
  intro evs
  induction evs with
  | nil =>
    intro s h1 h2
    obtain ⟨ab, ta, em, he⟩ := s
    simp_all
  | cons te rest ih =>
    intro s h1 h2
    obtain ⟨t, e⟩ := te
    have hstep : stepEvent T s (t, e) =
        { aborted := false, timerArmed := false,
          emits := s.emits ++ [toCEmit (t, e)], hadErr := s.hadErr } := by
      obtain ⟨ab, ta, em, he⟩ := s
      simp only at h1 h2
      subst h1 h2
      unfold stepEvent
      cases e <;> simp [toCEmit]
    rw [List.foldl_cons, hstep, ih _ rfl rfl]
    simp

/-- Forwarded emissions contain as many terminal events as the input. -/
lemma terminal_count_map (evs : List (Int × SEvent)) :
    ((evs.map toCEmit).filter CEmit.isTerminal).length = underlyingTerminals evs := by
  unfold underlyingTerminals
  induction evs with
  | nil => rfl
  | cons te rest ih =>
    simp only [List.map_cons, List.filter_cons, isTerminal_toCEmit]
    split <;> simp [ih]

/--
C6 amended: the wrapper delivers exactly one of end and error provided
the underlying query is itself single-terminal when it beats the
deadline: if some underlying event arrives before the timeout deadline
and the underlying sequence contains exactly one terminal event, or if
no underlying event beats the deadline (the timeout, when positive,
then supplies the sole terminal error), then exactly one terminal
event is delivered.  The only deduplication mechanism is the abort
flag set by the timeout; an underlying sequence with two terminal
events that beats the deadline is forwarded as-is (see the C6
counterexample).
-/
theorem single_terminal_event (timeout : Int) (events : List (Int × SEvent))
    (h1 : 0 < timeout)
    (h2 : underlyingTerminals events = 1 ∨ ¬ headBeforeDeadline events timeout) :
    terminalCount (clientQueryRun timeout events) = 1 := by
  cases events with
  | nil =>
    unfold clientQueryRun
    simp [h1, fireTimer, terminalCount, CEmit.isTerminal]
  | cons te rest =>
    obtain ⟨t, e⟩ := te
    by_cases hbt : t < timeout
    · have hterm : underlyingTerminals ((t, e) :: rest) = 1 := by
        rcases h2 with h | h
        · exact h
        · exact absurd hbt h
      unfold clientQueryRun
      have hstep : stepEvent timeout { timerArmed := decide (0 < timeout) } (t, e) =
          { aborted := false, timerArmed := false,
            emits := [toCEmit (t, e)], hadErr := false } := by
        unfold stepEvent
        have : ¬ (timeout ≤ t) := not_le.mpr hbt
        cases e <;> simp [this, toCEmit]
      rw [List.foldl_cons, hstep, foldl_stepEvent_forwards timeout rest _ rfl rfl]
      show terminalCount
        { aborted := false, timerArmed := false,
          emits := [toCEmit (t, e)] ++ rest.map toCEmit, hadErr := false } = 1
      unfold terminalCount
      have hmap : [toCEmit (t, e)] ++ rest.map toCEmit = ((t, e) :: rest).map toCEmit := by
        simp
      show (List.filter CEmit.isTerminal ([toCEmit (t, e)] ++ rest.map toCEmit)).length = 1
      rw [hmap, terminal_count_map]
      exact hterm
    · have ht : timeout ≤ t := not_lt.mp hbt
      have hstep : stepEvent timeout { timerArmed := decide (0 < timeout) } (t, e) =
          { aborted := true, timerArmed := false,
            emits := [CEmit.cerror true], hadErr := true } := by
        unfold stepEvent fireTimer
        cases e <;> simp [h1, ht]
      unfold clientQueryRun
      rw [List.foldl_cons, hstep,
        foldl_stepEvent_absorbed timeout rest _ rfl rfl]
      rfl

/--
The source selector and the specification selector coincide on a
catalog entry with the version keys of pg_stat_replication and
pg_recovery: ascending key enumeration makes the last overwrite the
maximum threshold at most the server version.
-/
lemma sel_eq_versioned_pair (V : Int) (s1 s2 : String) :
    selectSql V [("90400", s1), ("100000", s2)] =
      specSelect V [("90400", s1), ("100000", s2)] := by
  have h1 : parseVersion "90400" = (90400 : Int) := by decide
  have h2 : parseVersion "100000" = (100000 : Int) := by decide
  simp only [selectSql, specSelect, List.foldl_cons, List.foldl_nil, List.find?, h1, h2]
  by_cases ha : 100000 ≤ V
  · have hb : (90400 : Int) ≤ V := by omega
    simp [ha, hb, ge_iff_le, h1, h2]
  · by_cases hb : (90400 : Int) ≤ V
    · simp [ha, hb, ge_iff_le, h1, h2]
    · simp [ha, hb, ge_iff_le, h1, h2]

/--
The source selector and the specification selector coincide on the
single version key of pg_stat_progress_vacuum.
-/
lemma sel_eq_versioned_single (V : Int) (s : String) :
    selectSql V [("90600", s)] = specSelect V [("90600", s)] := by
  have h1 : parseVersion "90600" = (90600 : Int) := by decide
  simp only [selectSql, specSelect, List.foldl_cons, List.foldl_nil, List.find?, h1]
  by_cases ha : (90600 : Int) ≤ V
  · simp [ha, ge_iff_le]
  · simp [ha, ge_iff_le]

/-- Catalog traversal only depends on the selector through each entry. -/
lemma applyQueries_congr (f g : List (String × String) → Option String) (itv : Int) :
    ∀ l : List CatalogQuery, (∀ cq ∈ l, f cq.versionToSql = g cq.versionToSql) →
      applyQueries f itv l = applyQueries g itv l := by
  intro l
  induction l with
  | nil => intro _; rfl
  | cons cq rest ih =>
    intro h
    simp only [applyQueries]
    rw [ih (fun x hx => h x (List.mem_cons_of_mem _ hx)), h cq (List.mem_cons_self _ _)]

/--
C2: for every server version, `getQueries` returns exactly the catalog
queries that carry the single key "all" or have some integer version
key at most the server version, the SQL selected for a version-keyed
query is the one attached to the largest integer key at most the
server version (the keys enumerate in ascending numeric order, so the
last overwrite in the source fold is that maximum), and a query with
no matching key is omitted with a debug log naming it: the source
`getQueries` coincides with the selection the specification words
describe.
-/
theorem version_applicability : ∀ (interval pgVersion : Int),
    getQueries interval pgVersion = getQueriesSpec interval pgVersion := by
  intro itv V
  unfold getQueries getQueriesSpec
  apply applyQueries_congr
  intro cq hcq
  simp only [QUERIES, List.mem_cons, List.not_mem_nil, or_false] at hcq
  rcases hcq with rfl | rfl | rfl | rfl | rfl | rfl | rfl | rfl | rfl | rfl | rfl <;>
    first
      | rfl
      | exact sel_eq_versioned_pair V _ _
      | exact sel_eq_versioned_single V _

/-- Witness for C2 at the interval and versions exercised by the repository test. -/
theorem version_applicability_witness :
    getQueries 100 90500 = getQueriesSpec 100 90500 ∧
    (getQueries 100 90200).1.length = 8 ∧ (getQueries 100 90500).1.length = 10 := by
  refine ⟨version_applicability 100 90500, by decide, by decide⟩

/-- Witness for C6 at a concrete single-terminal sequence. -/
theorem single_terminal_event_witness :
    ((0 : Int) < 100 ∧ underlyingTerminals [((10 : Int), SEvent.send)] = 1) ∧
    terminalCount (clientQueryRun 100 [(10, SEvent.send)]) = 1 := by
  refine ⟨⟨by decide, by decide⟩, ?_⟩
  exact single_terminal_event 100 [(10, SEvent.send)] (by decide) (Or.inl (by decide))

end Pgstatsmon
